import Mathlib

/-!
Verification of the followthepattern/wiki site code: a shallow embedding of
the theme configuration (src/theme.config.tsx), the application root wrapper
(src/pages/_app.js) and the logo components (Logo, FPIcon), together with
proofs of the specified properties.

Rendered markup is modelled as a pure tree of nodes; React components become
total Lean functions returning such trees.  JSX fragments become lists of
nodes.  JavaScript string truthiness (the circumflex of the two uses of the
or-else operator in Head) is embedded explicitly.
-/

/-- A rendered markup node: a text node, a meta tag carrying a property and a
content attribute, a script tag carrying a src attribute, or a generic element
with a tag name, an optional className, further attributes and children. -/
inductive Node where
  | text (s : String)
  | metaTag (property content : String)
  | script (src : String)
  | elem (tag : String) (className : Option String)
      (attrs : List (String × String)) (children : List Node)

/-- The routing information Head reads from useRouter in
src/theme.config.tsx: the current path and the locale pair. -/
structure Router where
  asPath : String
  defaultLocale : String
  locale : String

/-- Front-matter metadata of the current page as exposed by useConfig; the
description may be absent, as in the JavaScript object. -/
structure FrontMatter where
  description : Option String

/-- The per-page configuration Head reads from useConfig in
src/theme.config.tsx: the page title and the front matter. -/
structure PageConfig where
  title : String
  frontMatter : FrontMatter

/-- JavaScript or-else on strings: a string is falsy exactly when empty, so
`a || b` yields `b` when `a` is empty and `a` otherwise. -/
def jsOr (a b : String) : String :=
  if a = "" then b else a

/-- JavaScript or-else where the left side may be undefined: an absent value
is falsy, a present string falls back to string truthiness. -/
def jsOrOpt : Option String → String → String
  | none, b => b
  | some a, b => jsOr a b

/-- Modelled from the spec: src/lib/constants, which exports WikiLink, is not
under src/; the spec says only that a canonical URL is built from it by
string concatenation, so its value is an opaque placeholder.  No theorem
depends on the placeholder characters. -/
def WikiLink : String := "WikiLink"

/-- Modelled from the spec: src/lib/constants, which exports DiscordLink, is
not under src/; the spec describes it as the outbound hyperlink to a chat
community, and CONTRIBUTING.md gives the Discord invite URL of that
community, which is used here. -/
def DiscordLink : String := "https://discord.com/invite/kDuKyG4EET"

/-- The Head function of src/theme.config.tsx lines 9 to 26: builds the
canonical og:url from the router state and emits the three og meta tags,
with the title and description falling back to fixed defaults. -/
def Head (router : Router) (cfg : PageConfig) : List Node :=
  let url :=
    WikiLink ++
      (if router.defaultLocale = router.locale then router.asPath
       else "/" ++ router.locale ++ router.asPath)
  [ Node.metaTag "og:url" url,
    Node.metaTag "og:title" (jsOr cfg.title "Follow The Pattern"),
    Node.metaTag "og:description"
      (jsOrOpt cfg.frontMatter.description "Modern web application development") ]

/-- C1: for every router state, the og:url emitted by Head is built by string
concatenation only: WikiLink followed by asPath when defaultLocale equals
locale, and otherwise WikiLink, a slash, the locale and asPath in that
order. -/
theorem head_og_url_concatenation (r : Router) (pc : PageConfig) :
    (Head r pc).head? =
      some (Node.metaTag "og:url"
        (WikiLink ++
          (if r.defaultLocale = r.locale then r.asPath
           else "/" ++ r.locale ++ r.asPath))) := by
  rfl

/-- C9: Head applies fallback defaults: the og:title content is the page
title when it is truthy (a nonempty string) and the fixed default otherwise,
and the og:description content is the front-matter description when it is
truthy and the fixed default otherwise. -/
theorem head_fallback_defaults (r : Router) (pc : PageConfig) :
    (Head r pc).get? 1 =
      some (Node.metaTag "og:title"
        (if pc.title ≠ "" then pc.title else "Follow The Pattern")) ∧
    (Head r pc).get? 2 =
      some (Node.metaTag "og:description"
        (match pc.frontMatter.description with
         | some d => if d ≠ "" then d else "Modern web application development"
         | none => "Modern web application development")) := by
  constructor
  · simp only [Head, List.get?, jsOr]
    by_cases h : pc.title = "" <;> simp [h]
  · simp only [Head, List.get?, jsOrOpt]
    cases hd : pc.frontMatter.description with
    | none => simp
    | some d =>
      simp only [jsOr]
      by_cases h : d = "" <;> simp [h]

/-- The FPIcon component (components/logo/FPIcon): renders an svg element
whose className is the className prop, containing a group with the two brand
paths.  The optional prop mirrors the TypeScript optional className. -/
def FPIcon (className : Option String) : Node :=
  Node.elem "svg" className
    [("xmlns", "SVG namespace"), ("viewBox", "0 0 60.14 60.73"),
     ("fill", "currentColor")]
    [Node.elem "g" (some "cls-fp-2") []
      [Node.elem "path" (some "cls-fp-3")
        [("d", "M10.92,62.37a9,9,0,0,1-9-9V22.47A20.84,20.84,0,0,1,22.77,1.63H53.08a9,9,0,0,1,9,9H22.77A11.85,11.85,0,0,0,10.92,22.47Z"),
         ("transform", "translate(-1.93 -1.63)")] [],
       Node.elem "path" (some "cls-fp-3")
        [("d", "M20.94,62.37V44.13a4.49,4.49,0,0,1,4.49-4.49H48.05a5,5,0,0,0,5-4.94,5.31,5.31,0,0,0-5.31-5.22H25.63A4.63,4.63,0,0,1,21,25.43a4.49,4.49,0,0,1,4.47-4.94h22A14.53,14.53,0,0,1,61.86,32.38,13.85,13.85,0,0,1,48.23,48.62H29.93v4.76a9,9,0,0,1-9,9"),
         ("transform", "translate(-1.93 -1.63)")] []]]

/-- The Logo component (components/logo/Logo): takes no props and renders a
div holding the FPIcon and the bold text WIKI. -/
def Logo : Node :=
  Node.elem "div" (some "flex space-x-2") []
    [FPIcon (some "w-6 h-6 text-blue-600"),
     Node.elem "p" (some "font-bold") [] [Node.text "WIKI"]]

/-- The object returned by useNextSeoProps in src/theme.config.tsx. -/
structure SeoProps where
  titleTemplate : String

/-- A configuration entry holding a single outbound link, as in the project
and chat entries of src/theme.config.tsx. -/
structure LinkCfg where
  link : String

/-- The footer entry of src/theme.config.tsx. -/
structure FooterCfg where
  text : String

/-- The shape of the theme configuration record of src/theme.config.tsx:
logo, project link, chat link, footer text, docs repository base, the SEO
props callback and the per-page head callback. -/
structure DocsThemeConfig where
  logo : Node
  project : LinkCfg
  chat : LinkCfg
  footer : FooterCfg
  docsRepositoryBase : String
  useNextSeoProps : Unit → SeoProps
  head : Router → PageConfig → List Node

/-- The theme configuration record of src/theme.config.tsx lines 28 to 46. -/
def config : DocsThemeConfig :=
  { logo := Logo,
    project := { link := "https://github.com/followthepattern/wiki" },
    chat := { link := DiscordLink },
    footer := { text := "© 2024 Follow The Pattern. All rights reserved." },
    docsRepositoryBase := "https://github.com/followthepattern/wiki/tree/main/",
    useNextSeoProps := fun _ => { titleTemplate := "%s | Follow The Pattern" },
    head := Head }

/-- The Script element mounted by App in src/pages/_app.js: the externally
hosted analytics script. -/
def appScript : Node :=
  Node.script "https://followthepattern.s3.us-east-2.amazonaws.com/fp/fp-analytics.js"

/-- The App wrapper of src/pages/_app.js lines 5 to 12: renders the analytics
script tag followed by the framework-selected page component applied to its
pageProps.  The page component is any function from props to markup. -/
def App {α : Type} (Component : α → Node) (pageProps : α) : List Node :=
  [appScript, Component pageProps]

mutual

/-- The script URLs a node causes the browser to fetch: the src of every
script tag in the tree. -/
def scriptSrcs : Node → List String
  | Node.text _ => []
  | Node.metaTag _ _ => []
  | Node.script src => [src]
  | Node.elem _ _ _ children => scriptSrcsList children

/-- The script URLs of a list of nodes. -/
def scriptSrcsList : List Node → List String
  | [] => []
  | n :: ns => scriptSrcs n ++ scriptSrcsList ns

end

/-- The script URLs fetched because of markup owned by this repository on a
page render: the head tags, the logo and the script element mounted by App.
The page component itself is framework-selected content, not repository
code. -/
def repoScriptSrcs (r : Router) (pc : PageConfig) : List String :=
  scriptSrcsList (Head r pc) ++ scriptSrcs config.logo ++ scriptSrcs appScript

/-- The state visible to rendering during a site visit: the theme
configuration record.  The source contains no assignment to it, so every
rendering step passes it through unchanged. -/
structure SiteState where
  cfg : DocsThemeConfig

/-- One rendering step of the framework lifecycle: the configured head
callback is applied to the request and the state is passed through, since
the source writes to nothing. -/
def renderHead (s : SiteState) (r : Router) (pc : PageConfig) :
    List Node × SiteState :=
  (s.cfg.head r pc, s)

/-- A site visit: the framework renders a sequence of requests, threading
the site state through the rendering steps. -/
def runVisit : SiteState → List (Router × PageConfig) → List (List Node) × SiteState
  | s, [] => ([], s)
  | s, req :: reqs =>
    let out := renderHead s req.1 req.2
    let rest := runVisit out.2 reqs
    (out.1 :: rest.1, rest.2)

/-- Rendering never writes to the site state: a visit returns the state it
started from. -/
theorem runVisit_state (s : SiteState) (reqs : List (Router × PageConfig)) :
    (runVisit s reqs).2 = s := by
  induction reqs with
  | nil => rfl
  | cons req reqs ih => simpa [runVisit, renderHead] using ih

/-- C2: Head has no error conditions and no side effects: it is a total
function, a rendering step leaves the site state unchanged, and for every
router state and page configuration it returns exactly the three og meta
tags url, title and description. -/
theorem head_no_errors_no_effects (r : Router) (pc : PageConfig) :
    (renderHead ⟨config⟩ r pc).2 = ⟨config⟩ ∧
    ∃ u t d, Head r pc =
      [Node.metaTag "og:url" u, Node.metaTag "og:title" t,
       Node.metaTag "og:description" d] :=
  ⟨rfl, _, _, _, rfl⟩

/-- C3: App renders exactly one analytics script element, whose src is the
fixed external analytics URL, followed by the framework-selected page
component applied to its pageProps. -/
theorem app_script_then_page {α : Type} (Component : α → Node) (pageProps : α) :
    App Component pageProps =
      [Node.script "https://followthepattern.s3.us-east-2.amazonaws.com/fp/fp-analytics.js",
       Component pageProps] :=
  rfl

/-- C4: the theme configuration is immutable: after any site visit every one
of its fields is still the initial value, so every read during the visit
observes the same values. -/
theorem config_immutable (reqs : List (Router × PageConfig)) :
    (runVisit ⟨config⟩ reqs).2.cfg.logo = config.logo ∧
    (runVisit ⟨config⟩ reqs).2.cfg.project.link = config.project.link ∧
    (runVisit ⟨config⟩ reqs).2.cfg.chat.link = config.chat.link ∧
    (runVisit ⟨config⟩ reqs).2.cfg.footer.text = config.footer.text ∧
    (runVisit ⟨config⟩ reqs).2.cfg.docsRepositoryBase = config.docsRepositoryBase ∧
    (runVisit ⟨config⟩ reqs).2.cfg.useNextSeoProps = config.useNextSeoProps ∧
    (runVisit ⟨config⟩ reqs).2.cfg.head = config.head := by
  rw [runVisit_state ⟨config⟩ reqs]
  exact ⟨rfl, rfl, rfl, rfl, rfl, rfl, rfl⟩

/-- C5: the configuration wires fixed metadata: useNextSeoProps returns the
title template on every call, and the footer text is the fixed copyright
line. -/
theorem config_metadata_constants :
    (∀ u : Unit, config.useNextSeoProps u =
      { titleTemplate := "%s | Follow The Pattern" }) ∧
    config.footer.text = "© 2024 Follow The Pattern. All rights reserved." :=
  ⟨fun _ => rfl, rfl⟩

/-- C6: the outbound links are fixed cross-references with the stated values,
and no markup owned by this repository fetches any of them: the only script
URL the repository mounts is the analytics URL, distinct from all three. -/
theorem config_outbound_links (r : Router) (pc : PageConfig) :
    config.project.link = "https://github.com/followthepattern/wiki" ∧
    config.chat.link = DiscordLink ∧
    config.docsRepositoryBase = "https://github.com/followthepattern/wiki/tree/main/" ∧
    config.project.link ∉ repoScriptSrcs r pc ∧
    config.chat.link ∉ repoScriptSrcs r pc ∧
    config.docsRepositoryBase ∉ repoScriptSrcs r pc := by
  refine ⟨rfl, rfl, rfl, ?_, ?_, ?_⟩ <;>
    simp [repoScriptSrcs, Head, scriptSrcs, scriptSrcsList, config, Logo,
      FPIcon, appScript, DiscordLink]

/-- C7: rendering never mutates content: App returns the content pair
(component and pageProps) unchanged, and the page part of its output is the
component applied to the original pageProps. -/
theorem app_content_readonly {α : Type} (content : (α → Node) × α) :
    ((App content.1 content.2, content) :
        List Node × ((α → Node) × α)).2 = content ∧
    (App content.1 content.2).getLast? = some (content.1 content.2) :=
  ⟨rfl, rfl⟩

/-- C8: Logo takes no inputs and is the fixed markup of an FPIcon followed by
the text WIKI, and FPIcon renders an svg whose className equals its className
prop unchanged. -/
theorem logo_fixed_markup :
    (∀ c : Option String, ∃ attrs children,
      FPIcon c = Node.elem "svg" c attrs children) ∧
    Logo = Node.elem "div" (some "flex space-x-2") []
      [FPIcon (some "w-6 h-6 text-blue-600"),
       Node.elem "p" (some "font-bold") [] [Node.text "WIKI"]] :=
  ⟨fun c => ⟨_, _, (rfl : FPIcon c = _)⟩, rfl⟩

/-- C10: rendering is deterministic: Head yields identical markup on equal
router state and equal page configuration, and App yields identical output on
equal component and pageProps. -/
theorem rendering_deterministic :
    (∀ (r₁ r₂ : Router) (c₁ c₂ : PageConfig),
      r₁.asPath = r₂.asPath → r₁.defaultLocale = r₂.defaultLocale →
      r₁.locale = r₂.locale → c₁.title = c₂.title →
      c₁.frontMatter = c₂.frontMatter → Head r₁ c₁ = Head r₂ c₂) ∧
    (∀ (α : Type) (C₁ C₂ : α → Node) (p₁ p₂ : α),
      C₁ = C₂ → p₁ = p₂ → App C₁ p₁ = App C₂ p₂) := by
  constructor
  · intro r₁ r₂ c₁ c₂ ha hd hl ht hf
    obtain ⟨a₁, d₁, l₁⟩ := r₁
    obtain ⟨a₂, d₂, l₂⟩ := r₂
    obtain ⟨t₁, f₁⟩ := c₁
    obtain ⟨t₂, f₂⟩ := c₂
    simp only at ha hd hl ht hf
    subst ha; subst hd; subst hl; subst ht; subst hf
    rfl
  · intro α C₁ C₂ p₁ p₂ hC hp
    subst hC; subst hp
    rfl

/-- Witness for C10 at a concrete router state, page configuration, component
and props. -/
theorem rendering_deterministic_witness :
    Head ⟨"/go", "en", "en"⟩ ⟨"Go", ⟨some "intro"⟩⟩ =
      Head ⟨"/go", "en", "en"⟩ ⟨"Go", ⟨some "intro"⟩⟩ ∧
    App (fun _ : Unit => Node.text "page") () =
      App (fun _ : Unit => Node.text "page") () :=
  ⟨rendering_deterministic.1 ⟨"/go", "en", "en"⟩ ⟨"/go", "en", "en"⟩
      ⟨"Go", ⟨some "intro"⟩⟩ ⟨"Go", ⟨some "intro"⟩⟩ rfl rfl rfl rfl rfl,
   rendering_deterministic.2 Unit (fun _ => Node.text "page")
      (fun _ => Node.text "page") () () rfl rfl⟩
